import Mathlib

/-!
Verification development for the snuffle-scraper enrichment server.

The definitions below are a shallow embedding of the repository's Python
sources:

* `src/models.py`   — the pydantic schema library (pure data shapes);
* `src/redis_client.py` — the constants and the atomic Lua
  append-and-advance script `_UPDATE_AND_CHECK_TASK_LUA`;
* `src/services.py` — `get_redis_data`, `filter_low_confidence_contacts`,
  `process_enqueue_enrichment`, `process_enrichment_aggregation`;
* `src/routes.py`   — `enqueue_enrichment` and the filtering loop of
  `get_task_results`.

Numbers: confidence scores and timestamps (Python floats) are modelled as
rationals `ℚ`; JSON integers as `Int`.  Python falsiness of `None`, `""`
and `{}` is modelled by `Option.none` where it matters (commented at each
site).  Effectful code is modelled by explicit traces of the store writes,
queue sends and webhook posts a call performs.
-/

/-- TASK_RESULT_TTL from src/redis_client.py: 60 * 60 * 600 seconds. -/
def TASK_RESULT_TTL : Nat := 60 * 60 * 600

/-- MIN_CONFIDENCE_SCORE from src/redis_client.py (0.5 as a rational). -/
def MIN_CONFIDENCE_SCORE : ℚ := mkRat 1 2

/-- Source model from src/models.py. -/
structure Source where
  description : Option String
  url : Option String
deriving DecidableEq, Repr

/-- ValueWithConfidence model from src/models.py. -/
structure ValueWithConfidence where
  value : Option String
  sources : List Source
  confidence : Option ℚ
deriving DecidableEq, Repr

/-- ContactWithSources model from src/models.py: six optional nested
fields plus a required confidenceScore (pydantic-validated to [0,1] when
parsed from a raw payload). -/
structure ContactWithSources where
  firstName : Option ValueWithConfidence
  lastName : Option ValueWithConfidence
  email : Option ValueWithConfidence
  phone : Option ValueWithConfidence
  linkedinUrl : Option ValueWithConfidence
  role : Option ValueWithConfidence
  confidenceScore : ℚ
deriving DecidableEq, Repr

/-- ScraperAggregatedOutput model from src/models.py (extra fields on the
raw payload are ignored when parsing, per `Config.extra = "ignore"`). -/
structure ScraperAggregatedOutput where
  companyId : Int
  companyName : String
  contacts : List ContactWithSources
deriving DecidableEq, Repr

/-- Contact model (flattened, outward-facing) from src/models.py. -/
structure Contact where
  firstName : Option String
  lastName : Option String
  email : Option String
  phone : Option String
  linkedinUrl : Option String
  role : Option String
  confidenceScore : ℚ
deriving DecidableEq, Repr

/-- CompanyResult model from src/models.py. -/
structure CompanyResult where
  companyId : Int
  companyName : String
  contacts : List Contact
deriving DecidableEq, Repr

/-- A raw JSON value standing in one of the six contact fields of a
loosely-typed worker report: absent, a plain string, or a nested
value/sources/confidence object (the shape `ValueWithConfidence` parses). -/
inductive RawField where
  | absent
  | str (s : String)
  | nested (value : Option String) (sources : List Source) (confidence : Option ℚ)
deriving DecidableEq, Repr

/-- A raw per-contact JSON object inside a worker report.  The six
fields may each be absent, a plain string, or a nested object;
`confidenceScore` may be absent. -/
structure RawContact where
  firstName : RawField
  lastName : RawField
  email : RawField
  phone : RawField
  linkedinUrl : RawField
  role : RawField
  confidenceScore : Option ℚ
deriving DecidableEq, Repr

/-- A raw per-company worker report as stored in the task record's
`results` list: optional companyId / companyName, a contacts list
(absence of the key is identified with the empty list, matching
`company_result.get("contacts", [])` and the pydantic default), and an
optional `error` marker (`some e` models a truthy error object). -/
structure RawReport where
  companyId : Option Int
  companyName : Option String
  contacts : List RawContact
  error : Option String
deriving DecidableEq, Repr

/-- Pydantic parse of one raw contact field into
`Optional[ValueWithConfidence]`: absent parses to `none`, a nested object
parses to `some`, and a bare string fails validation. -/
def parse_value_with_confidence : RawField → Option (Option ValueWithConfidence)
  | .absent => some none
  | .str _ => none
  | .nested v s c => some (some ⟨v, s, c⟩)

/-- Pydantic parse of a raw contact into `ContactWithSources`: every
field must be absent or nested, and `confidenceScore` must be present and
within the declared bounds [0, 1]. -/
def parse_contact (c : RawContact) : Option ContactWithSources := do
  let f ← parse_value_with_confidence c.firstName
  let l ← parse_value_with_confidence c.lastName
  let e ← parse_value_with_confidence c.email
  let p ← parse_value_with_confidence c.phone
  let li ← parse_value_with_confidence c.linkedinUrl
  let ro ← parse_value_with_confidence c.role
  let q ← c.confidenceScore
  if 0 ≤ q ∧ q ≤ 1 then pure ⟨f, l, e, p, li, ro, q⟩ else none

/-- Pydantic parse of a raw report into `ScraperAggregatedOutput`
(the `ScraperAggregatedOutput(**company_result)` attempt in
`filter_low_confidence_contacts`): companyId and companyName must be
present and every contact must validate; the extra `error` key is
ignored per the model's config. -/
def parse_scraper_output (r : RawReport) : Option ScraperAggregatedOutput := do
  let cid ← r.companyId
  let cname ← r.companyName
  let cs ← r.contacts.mapM parse_contact
  pure ⟨cid, cname, cs⟩

/-- The typed path's per-field flattening:
`contact.firstName.value if contact.firstName else None`. -/
def flatten_structured_field : Option ValueWithConfidence → Option String
  | none => none
  | some v => v.value

/-- The fallback path's per-field flattening:
`contact.get(f, \x7b\x7d).get("value") if isinstance(contact.get(f), dict)
else contact.get(f)`. -/
def fallback_field_value : RawField → Option String
  | .absent => none
  | .str s => some s
  | .nested v _ _ => v

/-- Construction of the pydantic `Contact` model; validation requires the
confidence score to be within [0, 1] (`Field(..., ge=0, le=1)`); `none`
models the raised ValidationError. -/
def mk_contact (firstName lastName email phone linkedinUrl role : Option String)
    (score : ℚ) : Option Contact :=
  if 0 ≤ score ∧ score ≤ 1 then
    some ⟨firstName, lastName, email, phone, linkedinUrl, role, score⟩
  else
    none

/-- The typed-path filtering loop of `filter_low_confidence_contacts`:
keep a contact when `confidenceScore >= MIN_CONFIDENCE_SCORE`, flattening
each kept contact; `none` models an exception escaping the loop. -/
def structured_filtered_contacts : List ContactWithSources → Option (List Contact)
  | [] => some []
  | contact :: rest =>
    if contact.confidenceScore ≥ MIN_CONFIDENCE_SCORE then
      match mk_contact (flatten_structured_field contact.firstName)
          (flatten_structured_field contact.lastName)
          (flatten_structured_field contact.email)
          (flatten_structured_field contact.phone)
          (flatten_structured_field contact.linkedinUrl)
          (flatten_structured_field contact.role)
          contact.confidenceScore with
      | none => none
      | some fc => (structured_filtered_contacts rest).map (fc :: ·)
    else structured_filtered_contacts rest

/-- The typed path of `filter_low_confidence_contacts` after a successful
`ScraperAggregatedOutput` parse. -/
def structured_result (out : ScraperAggregatedOutput) : Option CompanyResult :=
  match structured_filtered_contacts out.contacts with
  | none => none
  | some cs => some ⟨out.companyId, out.companyName, cs⟩

/-- The fallback (raw-dict) filtering loop of
`filter_low_confidence_contacts`: the score defaults to 0 when absent
(`contact.get("confidenceScore", 0)`). -/
def fallback_filtered_contacts : List RawContact → Option (List Contact)
  | [] => some []
  | contact :: rest =>
    let score := contact.confidenceScore.getD 0
    if score ≥ MIN_CONFIDENCE_SCORE then
      match mk_contact (fallback_field_value contact.firstName)
          (fallback_field_value contact.lastName)
          (fallback_field_value contact.email)
          (fallback_field_value contact.phone)
          (fallback_field_value contact.linkedinUrl)
          (fallback_field_value contact.role)
          score with
      | none => none
      | some fc => (fallback_filtered_contacts rest).map (fc :: ·)
    else fallback_filtered_contacts rest

/-- The fallback path of `filter_low_confidence_contacts`; the final
`CompanyResult(companyId=..., companyName=..., ...)` construction fails
validation when either identifier is absent. -/
def fallback_result (r : RawReport) : Option CompanyResult :=
  match fallback_filtered_contacts r.contacts with
  | none => none
  | some cs =>
    match r.companyId, r.companyName with
    | some cid, some cname => some ⟨cid, cname, cs⟩
    | _, _ => none

/-- filter_low_confidence_contacts from src/services.py: try the typed
parse, fall back to raw-dict handling when it fails. -/
def filter_low_confidence_contacts (company_result : RawReport) : Option CompanyResult :=
  match parse_scraper_output company_result with
  | some out => structured_result out
  | none => fallback_result company_result

/-- Flattening of one kept contact on the typed path, as a total
function (used to state what the filtering loop produces). -/
def flatten_structured_contact (c : ContactWithSources) : Contact :=
  ⟨flatten_structured_field c.firstName, flatten_structured_field c.lastName,
    flatten_structured_field c.email, flatten_structured_field c.phone,
    flatten_structured_field c.linkedinUrl, flatten_structured_field c.role,
    c.confidenceScore⟩

/-- Flattening of one kept contact on the fallback path, as a total
function. -/
def flatten_fallback_contact (c : RawContact) : Contact :=
  ⟨fallback_field_value c.firstName, fallback_field_value c.lastName,
    fallback_field_value c.email, fallback_field_value c.phone,
    fallback_field_value c.linkedinUrl, fallback_field_value c.role,
    c.confidenceScore.getD 0⟩

/-- The persisted task record EnrichmentRedisData from src/models.py
(create_time is a float in the source, modelled as a rational; the
`errors` list is written as [] at creation and never touched by any
writer). -/
structure TaskData where
  task_id : String
  status : String
  create_time : ℚ
  numTasks : Int
  numTasksCompleted : Int
  results : List RawReport
  errors : List String
  webhookUrl : String
deriving DecidableEq, Repr

/-- The value returned by the Lua script _UPDATE_AND_CHECK_TASK_LUA
together with the record it re-persists (the SETEX write): the triple is
(new completed-count, total task count, just-completed flag). -/
structure ScriptReturn where
  newData : TaskData
  completedCount : Int
  totalTasks : Int
  justCompleted : Nat
deriving DecidableEq, Repr

/-- Body of _UPDATE_AND_CHECK_TASK_LUA from src/redis_client.py once the
record has been fetched and decoded: append the result, increment
numTasksCompleted, flip status to completed (flagging just_completed = 1)
exactly when the new counter equals numTasks and the status is not
already completed, and re-persist.  (The script's `data.results == nil`
and `numTasksCompleted or 0` guards are vacuous here because the record
shape always carries both fields.) -/
def script_core (data : TaskData) (result : RawReport) : ScriptReturn :=
  let d1 : TaskData :=
    { data with
      results := data.results ++ [result],
      numTasksCompleted := data.numTasksCompleted + 1 }
  if d1.numTasksCompleted = d1.numTasks then
    if d1.status ≠ "completed" then
      ⟨{ d1 with status := "completed" }, d1.numTasksCompleted, d1.numTasks, 1⟩
    else
      ⟨d1, d1.numTasksCompleted, d1.numTasks, 0⟩
  else
    ⟨d1, d1.numTasksCompleted, d1.numTasks, 0⟩

/-- The whole script including the initial GET: an absent key answers the
NOT_FOUND error reply instead of inventing a record. -/
def update_and_check_task (stored : Option TaskData) (result : RawReport) :
    Except String ScriptReturn :=
  match stored with
  | none => .error "NOT_FOUND"
  | some data => .ok (script_core data result)

/-- Iterated execution of the append-and-advance script against one task
record: the state after a sequence of aggregator callbacks. -/
def run_script : TaskData → List RawReport → TaskData
  | d, [] => d
  | d, r :: rs => run_script (script_core d r).newData rs

/-- The just-completed flags returned along a sequence of script
executions, in order. -/
def run_flags : TaskData → List RawReport → List Nat
  | _, [] => []
  | d, r :: rs => (script_core d r).justCompleted :: run_flags (script_core d r).newData rs

/-- A write of a JSON-encoded task record into the store under a key with
a time-to-live (the SETEX calls in routes.py and in the Lua script). -/
structure StoreWrite where
  key : String
  ttl : Nat
  data : TaskData
deriving DecidableEq, Repr

/-- The synchronous JSON response of POST /enqueue_enrichment. -/
structure EnqueueResponse where
  task_id : String
  status : String
  numCompanies : Nat
deriving DecidableEq, Repr

/-- CompanyInput model from src/models.py. -/
structure CompanyInput where
  companyName : String
  companyId : Int
deriving DecidableEq, Repr

/-- EnrichmentInput model from src/models.py. -/
structure EnrichmentInput where
  formData : List CompanyInput
deriving DecidableEq, Repr

/-- enqueue_enrichment from src/routes.py, as a pure function of the
request body, the generated uuid, the current time and the WEBHOOK_URL
environment value: it returns the store write it performs (before
responding, and before any queue interaction) and the synchronous
response. -/
def enqueue_enrichment (input_data : EnrichmentInput) (task_id : String)
    (now : ℚ) (webhook_url : String) : StoreWrite × EnqueueResponse :=
  let redis_data : TaskData :=
    { task_id := task_id
      status := "pending"
      create_time := now
      numTasks := input_data.formData.length
      numTasksCompleted := 0
      results := []
      errors := []
      webhookUrl := webhook_url }
  (⟨"task:" ++ task_id, TASK_RESULT_TTL, redis_data⟩,
    { task_id := task_id, status := "processing",
      numCompanies := input_data.formData.length })

/-- A raw store entry as JSON-decoded into a dict, before pydantic
validation: every field of the task record, each possibly missing.
(Entries whose bytes are not valid JSON raise out of `json.loads`
unhandled and are outside this model.) -/
structure TaskJson where
  task_id : Option String
  status : Option String
  create_time : Option ℚ
  numTasks : Option Int
  numTasksCompleted : Option Int
  results : Option (List RawReport)
  errors : Option (List String)
  webhookUrl : Option String
deriving DecidableEq, Repr

/-- Pydantic validation of a decoded store entry against
EnrichmentRedisData: all fields are required except `results` and
`errors`, which default to the empty list. -/
def parse_task_data (j : TaskJson) : Option TaskData := do
  let tid ← j.task_id
  let st ← j.status
  let ct ← j.create_time
  let n ← j.numTasks
  let k ← j.numTasksCompleted
  let wh ← j.webhookUrl
  pure ⟨tid, st, ct, n, k, j.results.getD [], j.errors.getD [], wh⟩

/-- A FastAPI HTTPException as raised by get_redis_data. -/
structure HTTPException where
  status_code : Nat
  detail : String
deriving DecidableEq, Repr

/-- get_redis_data from src/services.py, as a function of the store's
content at key `task:<task_id>` (`none` models an absent key, or the
falsy empty reply): 404 when absent, 400 when present but failing
validation, the parsed record otherwise.  The store is never written. -/
def get_redis_data (stored : Option TaskJson) (task_id : String) :
    Except HTTPException TaskData :=
  match stored with
  | none => .error ⟨404, "Task " ++ task_id ++ " not found"⟩
  | some j =>
    match parse_task_data j with
    | some d => .ok d
    | none => .error ⟨400, "Invalid data format for task " ++ task_id⟩

/-- One outbound Service Bus message of the fan-out job. -/
structure QueueMessage where
  task_id : String
  company_name : String
  company_id : Int
deriving DecidableEq, Repr

/-- The JSON body of an outbound webhook POST: either the bare
`results` object sent for an empty batch, or the completion payload
carrying the task id. -/
inductive WebhookBody where
  | resultsOnly (results : List CompanyResult)
  | withTaskId (taskId : String) (results : List CompanyResult)
deriving DecidableEq, Repr

/-- An outbound webhook POST performed by a job. -/
structure WebhookPost where
  url : String
  body : WebhookBody
deriving DecidableEq, Repr

/-- The environment configuration read by the fan-out job.  `none`
models an unset (or empty, hence falsy) variable. -/
structure FanoutEnv where
  queue_name : Option String
  connection_string : Option String
  webhook_url : Option String
deriving DecidableEq, Repr

/-- The observable effects of one run of the fan-out job: queue message
batches sent, webhook posts performed, and task-store writes performed. -/
structure FanoutTrace where
  sentBatches : List (List QueueMessage)
  webhookPosts : List WebhookPost
  storeWrites : List StoreWrite
deriving DecidableEq, Repr

/-- Splitting a list into chunks of size m + 1, mirroring
`for i in range(0, len(data_to_send), batch_size)`. -/
def chunksOfSucc (m : Nat) : List α → List (List α)
  | [] => []
  | x :: xs => (x :: xs).take (m + 1) :: chunksOfSucc m (xs.drop m)
termination_by l => l.length
decreasing_by
  simp only [List.length_drop, List.length_cons]
  omega

/-- process_enqueue_enrichment from src/services.py, on its exception-free
path, as the trace of effects it performs.  Missing queue configuration
is checked first and short-circuits everything, including the
empty-batch webhook post.  An empty batch posts `{"results": []}` to the
webhook when one is configured and sends nothing to the queue.  A
non-empty batch is sent in chunks of batch_size = 10.  (The retry loop,
the per-message oversize drop and the inter-batch sleep do not alter the
happy-path trace and are not modelled.)  The job performs no task-store
write on any path. -/
def process_enqueue_enrichment (env : FanoutEnv) (input_data : EnrichmentInput)
    (task_id : String) : FanoutTrace :=
  match env.queue_name, env.connection_string with
  | some _, some _ =>
    let companies := input_data.formData
    if companies.length = 0 then
      match env.webhook_url with
      | some url => ⟨[], [⟨url, .resultsOnly []⟩], []⟩
      | none => ⟨[], [], []⟩
    else
      let data_to_send := companies.map fun c =>
        QueueMessage.mk task_id c.companyName c.companyId
      ⟨chunksOfSucc 9 data_to_send, [], []⟩
  | _, _ => ⟨[], [], []⟩

/-- EnrichmentAggregatorInput from src/models.py: the worker callback
payload (`none` for `data`/`error` models an absent, null or otherwise
falsy value). -/
structure AggregatorInput where
  task_id : String
  data : Option RawReport
  error : Option String
deriving DecidableEq, Repr

/-- The payload process_enrichment_aggregation hands to the atomic
script: when a truthy error marker is present, `data = data or
\x7b..., "error": error\x7d` keeps a supplied data payload unchanged and
otherwise synthesizes the placeholder report carrying the marker. -/
def resolved_payload (inp : AggregatorInput) : Option RawReport :=
  match inp.error with
  | some e => some (inp.data.getD ⟨none, none, [], some e⟩)
  | none => inp.data

/-- The result-filtering loop of GET /task/task_id/results in
src/routes.py: skip stored entries whose payload carries a truthy error
marker, flatten the rest in order (`none` models an exception escaping
the loop). -/
def get_task_results_filtered : List RawReport → Option (List CompanyResult)
  | [] => some []
  | r :: rs =>
    match r.error with
    | some _ => get_task_results_filtered rs
    | none =>
      match filter_low_confidence_contacts r, get_task_results_filtered rs with
      | some c, some rest => some (c :: rest)
      | _, _ => none

/-- The identical result-filtering loop of the webhook-dispatch step of
process_enrichment_aggregation in src/services.py. -/
def aggregation_filtered_results : List RawReport → Option (List CompanyResult)
  | [] => some []
  | r :: rs =>
    match r.error with
    | some _ => aggregation_filtered_results rs
    | none =>
      match filter_low_confidence_contacts r, aggregation_filtered_results rs with
      | some c, some rest => some (c :: rest)
      | _, _ => none

lemma script_core_results (d : TaskData) (r : RawReport) :
    (script_core d r).newData.results = d.results ++ [r] := by
  simp only [script_core]
  split
  · split <;> rfl
  · rfl

lemma script_core_counter (d : TaskData) (r : RawReport) :
    (script_core d r).newData.numTasksCompleted = d.numTasksCompleted + 1 := by
  simp only [script_core]
  split
  · split <;> rfl
  · rfl

lemma script_core_numTasks (d : TaskData) (r : RawReport) :
    (script_core d r).newData.numTasks = d.numTasks := by
  simp only [script_core]
  split
  · split <;> rfl
  · rfl

lemma script_core_completedCount (d : TaskData) (r : RawReport) :
    (script_core d r).completedCount = d.numTasksCompleted + 1 := by
  simp only [script_core]
  split
  · split <;> rfl
  · rfl

lemma script_core_totalTasks (d : TaskData) (r : RawReport) :
    (script_core d r).totalTasks = d.numTasks := by
  simp only [script_core]
  split
  · split <;> rfl
  · rfl

lemma script_core_status (d : TaskData) (r : RawReport) :
    (script_core d r).newData.status =
      if d.numTasksCompleted + 1 = d.numTasks ∧ d.status ≠ "completed" then "completed"
      else d.status := by
  simp only [script_core]
  split_ifs with h1 h2 h3 <;> simp_all

lemma script_core_flag (d : TaskData) (r : RawReport) :
    (script_core d r).justCompleted =
      if d.numTasksCompleted + 1 = d.numTasks ∧ d.status ≠ "completed" then 1 else 0 := by
  simp only [script_core]
  split_ifs with h1 h2 h3 <;> simp_all

lemma run_flags_of_completed (rs : List RawReport) :
    ∀ d : TaskData, d.status = "completed" →
      run_flags d rs = List.replicate rs.length 0 := by
  induction rs with
  | nil => intro d _; rfl
  | cons r rs ih =>
    intro d h
    have hst : (script_core d r).newData.status = "completed" := by
      rw [script_core_status]
      split_ifs with h1
      · rfl
      · exact h
    have hfl : (script_core d r).justCompleted = 0 := by
      rw [script_core_flag, if_neg]
      intro hcon
      exact hcon.2 h
    simp [run_flags, hfl, ih _ hst, List.replicate]

lemma run_flags_count_le_one (rs : List RawReport) :
    ∀ d : TaskData, (run_flags d rs).count 1 ≤ 1 := by
  induction rs with
  | nil => intro d; simp [run_flags]
  | cons r rs ih =>
    intro d
    by_cases h : (script_core d r).justCompleted = 1
    · have hst : (script_core d r).newData.status = "completed" := by
        rw [script_core_status]
        rw [script_core_flag] at h
        split_ifs with h1
        · rfl
        · simp [h1] at h
      simp [run_flags, h, run_flags_of_completed rs _ hst, List.count_replicate]
    · have h0 : (script_core d r).justCompleted = 0 := by
        rw [script_core_flag] at h ⊢
        split_ifs at h ⊢ with h1
        · exact absurd rfl h
        · rfl
      simp only [run_flags, List.count_cons, h0]
      simpa using ih (script_core d r).newData

/-- C1: every execution of the append-and-advance script against an
existing task record appends exactly one entry to `results` and
increments `numTasksCompleted` by exactly 1; the just-completed flag is 1
iff the new `numTasksCompleted` equals `numTasks` and the status was not
already completed; the script returns the triple (new completed-count,
total task count, flag); and along any sequence of executions at most one
execution returns flag 1. -/
theorem C1_script_append_advance_single_fire (d : TaskData) (r : RawReport) :
    update_and_check_task (some d) r = .ok (script_core d r) ∧
    (script_core d r).newData.results = d.results ++ [r] ∧
    (script_core d r).newData.numTasksCompleted = d.numTasksCompleted + 1 ∧
    ((script_core d r).justCompleted = 1 ↔
      ((script_core d r).newData.numTasksCompleted = d.numTasks ∧ d.status ≠ "completed")) ∧
    (script_core d r).completedCount = (script_core d r).newData.numTasksCompleted ∧
    (script_core d r).totalTasks = d.numTasks ∧
    ∀ rs : List RawReport, (run_flags d rs).count 1 ≤ 1 := by
  refine ⟨rfl, script_core_results d r, script_core_counter d r, ?_,
    by rw [script_core_completedCount, script_core_counter],
    script_core_totalTasks d r, fun rs => run_flags_count_le_one rs d⟩
  rw [script_core_flag, script_core_counter]
  split_ifs with h
  · simp [h]
  · simpa using h

lemma script_core_status_invariant (d : TaskData) (r : RawReport)
    (h0 : 0 ≤ d.numTasksCompleted)
    (hst : d.status =
      if 1 ≤ d.numTasks ∧ d.numTasks ≤ d.numTasksCompleted then "completed" else "pending") :
    (script_core d r).newData.status =
      if 1 ≤ d.numTasks ∧ d.numTasks ≤ d.numTasksCompleted + 1 then "completed"
      else "pending" := by
  rw [script_core_status]
  by_cases h1 : 1 ≤ d.numTasks ∧ d.numTasks ≤ d.numTasksCompleted
  · have hs : d.status = "completed" := by rw [hst, if_pos h1]
    rw [if_neg (by simp [hs]), hs, if_pos ⟨h1.1, by omega⟩]
  · have hs : d.status = "pending" := by rw [hst, if_neg h1]
    by_cases h2 : d.numTasksCompleted + 1 = d.numTasks
    · rw [if_pos ⟨h2, by simp [hs]⟩, if_pos (by omega)]
    · rw [if_neg (by simp [hs, h2]), hs, if_neg (by omega)]

lemma run_script_status (rs : List RawReport) :
    ∀ d : TaskData, 0 ≤ d.numTasksCompleted →
      d.status =
        (if 1 ≤ d.numTasks ∧ d.numTasks ≤ d.numTasksCompleted then "completed" else "pending") →
      (run_script d rs).status =
        (if 1 ≤ d.numTasks ∧ d.numTasks ≤ d.numTasksCompleted + rs.length then "completed"
         else "pending") := by
  induction rs with
  | nil => intro d h0 hst; simpa using hst
  | cons r rs ih =>
    intro d h0 hst
    have hk := script_core_counter d r
    have hn := script_core_numTasks d r
    have hrec := ih (script_core d r).newData (by omega)
      (by rw [hk, hn]; exact script_core_status_invariant d r h0 hst)
    rw [hk, hn] at hrec
    show (run_script (script_core d r).newData rs).status = _
    rw [hrec]
    have hiff : (1 ≤ d.numTasks ∧ d.numTasks ≤ d.numTasksCompleted + 1 + (rs.length : Int)) ↔
        (1 ≤ d.numTasks ∧ d.numTasks ≤ d.numTasksCompleted + ((r :: rs).length : Int)) := by
      simp only [List.length_cons]
      push_cast
      omega
    simp only [hiff]

lemma run_flags_count (rs : List RawReport) :
    ∀ d : TaskData, 0 ≤ d.numTasksCompleted →
      d.status =
        (if 1 ≤ d.numTasks ∧ d.numTasks ≤ d.numTasksCompleted then "completed" else "pending") →
      (run_flags d rs).count 1 =
        (if d.numTasksCompleted < d.numTasks ∧
            d.numTasks ≤ d.numTasksCompleted + rs.length then 1 else 0) := by
  induction rs with
  | nil =>
    intro d h0 hst
    simp only [run_flags, List.count_nil, List.length_nil, Nat.cast_zero, add_zero]
    rw [if_neg (by omega)]
  | cons r rs ih =>
    intro d h0 hst
    have hk := script_core_counter d r
    have hn := script_core_numTasks d r
    have hrec := ih (script_core d r).newData (by omega)
      (by rw [hk, hn]; exact script_core_status_invariant d r h0 hst)
    rw [hk, hn] at hrec
    show ((script_core d r).justCompleted :: run_flags (script_core d r).newData rs).count 1 = _
    by_cases h2 : d.numTasksCompleted + 1 = d.numTasks
    · have hs : d.status = "pending" := by rw [hst, if_neg (by omega)]
      have hf1 : (script_core d r).justCompleted = 1 := by
        rw [script_core_flag, if_pos ⟨h2, by simp [hs]⟩]
      have htail : (run_flags (script_core d r).newData rs).count 1 = 0 := by
        rw [hrec, if_neg (by omega)]
      have hrhs : (if d.numTasksCompleted < d.numTasks ∧
          d.numTasks ≤ d.numTasksCompleted + ((r :: rs).length : Int) then (1 : ℕ) else 0) = 1 := by
        rw [if_pos (by simp only [List.length_cons]; push_cast; omega)]
      simp only [List.count_cons, hf1, htail, hrhs]
      simp
    · have hf0 : (script_core d r).justCompleted = 0 := by
        rw [script_core_flag, if_neg (by simp [h2])]
      have hiff : (d.numTasksCompleted + 1 < d.numTasks ∧
          d.numTasks ≤ d.numTasksCompleted + 1 + (rs.length : Int)) ↔
          (d.numTasksCompleted < d.numTasks ∧
            d.numTasks ≤ d.numTasksCompleted + ((r :: rs).length : Int)) := by
        simp only [List.length_cons]
        push_cast
        omega
      simp only [List.count_cons, hf0, hrec, hiff]
      simp

/-- C2: starting from a freshly created record (status pending, zero
completed), the status after any sequence of script executions is
completed precisely when the run is at least numTasks long (with numTasks
at least 1) and pending otherwise — so the status flips exactly once, at
the execution whose increment first makes the counter equal numTasks, and
never reverts; moreover the just-completed flag fires exactly once over
such a run and never otherwise. -/
theorem C2_status_flips_once (d0 : TaskData) (h1 : d0.status = "pending")
    (h2 : d0.numTasksCompleted = 0) (rs : List RawReport) :
    ((run_script d0 rs).status =
      if 1 ≤ d0.numTasks ∧ d0.numTasks ≤ (rs.length : Int) then "completed" else "pending") ∧
    ((run_flags d0 rs).count 1 =
      if 1 ≤ d0.numTasks ∧ d0.numTasks ≤ (rs.length : Int) then 1 else 0) := by
  have hst : d0.status =
      (if 1 ≤ d0.numTasks ∧ d0.numTasks ≤ d0.numTasksCompleted then "completed"
       else "pending") := by
    rw [h1, if_neg (by omega)]
  constructor
  · have := run_script_status rs d0 (by omega) hst
    rwa [h2, zero_add] at this
  · have := run_flags_count rs d0 (by omega) hst
    rw [h2, zero_add] at this
    rw [this]
    have hiff : (0 < d0.numTasks ∧ d0.numTasks ≤ (rs.length : Int)) ↔
        (1 ≤ d0.numTasks ∧ d0.numTasks ≤ (rs.length : Int)) := by omega
    simp only [hiff]

/-- C2 witness: a record with numTasks = 2 run for three callbacks ends
completed and fires the flag exactly once. -/
theorem C2_status_flips_once_witness :
    ((run_script ⟨"t", "pending", 0, 2, 0, [], [], ""⟩
        [⟨none, none, [], none⟩, ⟨none, none, [], none⟩, ⟨none, none, [], none⟩]).status =
      if 1 ≤ (2 : Int) ∧ (2 : Int) ≤ ((3 : Nat) : Int) then "completed" else "pending") ∧
    ((run_flags ⟨"t", "pending", 0, 2, 0, [], [], ""⟩
        [⟨none, none, [], none⟩, ⟨none, none, [], none⟩, ⟨none, none, [], none⟩]).count 1 =
      if 1 ≤ (2 : Int) ∧ (2 : Int) ≤ ((3 : Nat) : Int) then 1 else 0) :=
  C2_status_flips_once ⟨"t", "pending", 0, 2, 0, [], [], ""⟩ rfl rfl
    [⟨none, none, [], none⟩, ⟨none, none, [], none⟩, ⟨none, none, [], none⟩]

lemma run_zero_tasks (rs : List RawReport) :
    ∀ d : TaskData, d.numTasks = 0 → 0 ≤ d.numTasksCompleted →
      (run_script d rs).status = d.status ∧
      run_flags d rs = List.replicate rs.length 0 := by
  induction rs with
  | nil => intro d _ _; exact ⟨rfl, rfl⟩
  | cons r rs ih =>
    intro d hn h0
    have hfl : (script_core d r).justCompleted = 0 := by
      rw [script_core_flag, if_neg (by omega)]
    have hs : (script_core d r).newData.status = d.status := by
      rw [script_core_status, if_neg (by omega)]
    have hrec := ih (script_core d r).newData
      (by rw [script_core_numTasks]; exact hn)
      (by rw [script_core_counter]; omega)
    refine ⟨?_, ?_⟩
    · show (run_script (script_core d r).newData rs).status = d.status
      rw [hrec.1, hs]
    · show (script_core d r).justCompleted :: run_flags (script_core d r).newData rs = _
      rw [hfl, hrec.2, List.length_cons, List.replicate_succ]

/-- C9: the record created by enqueuing an empty batch has numTasks = 0,
and no sequence of append-and-advance executions can ever move it to
completed: the counter is incremented to at least 1 before the equality
test, which therefore never succeeds, so the status stays pending and the
just-completed flag is 0 at every execution. -/
theorem C9_empty_batch_never_completes (tid : String) (now : ℚ) (wh : String)
    (rs : List RawReport) :
    (enqueue_enrichment ⟨[]⟩ tid now wh).1.data.numTasks = 0 ∧
    (run_script (enqueue_enrichment ⟨[]⟩ tid now wh).1.data rs).status = "pending" ∧
    run_flags (enqueue_enrichment ⟨[]⟩ tid now wh).1.data rs =
      List.replicate rs.length 0 := by
  have h := run_zero_tasks rs (enqueue_enrichment ⟨[]⟩ tid now wh).1.data rfl (by simp [enqueue_enrichment])
  exact ⟨rfl, h.1, h.2⟩

/-- C5: enqueuing a batch of N companies responds with task_id /
"processing" / numCompanies = N, and the record written to the store
before responding (a pure function of the request, independent of queue
or worker availability) is keyed task:<task_id> with a TTL of 2160000
seconds and has status pending, numTasks = N, numTasksCompleted = 0 and
empty results and errors lists. -/
theorem C5_enqueue_record_and_response (input_data : EnrichmentInput)
    (task_id : String) (now : ℚ) (webhook_url : String) :
    TASK_RESULT_TTL = 2160000 ∧
    (enqueue_enrichment input_data task_id now webhook_url).1 =
      ⟨"task:" ++ task_id, 2160000,
        ⟨task_id, "pending", now, input_data.formData.length, 0, [], [], webhook_url⟩⟩ ∧
    (enqueue_enrichment input_data task_id now webhook_url).2 =
      ⟨task_id, "processing", input_data.formData.length⟩ :=
  ⟨rfl, rfl, rfl⟩

/-- C7: the read-task-record helper behind the polling endpoints answers
exactly a 404 HTTPException when the store has no entry for the key, a
400 HTTPException when an entry exists but fails validation against the
task-record schema, and the parsed record otherwise; its type performs no
store mutation. -/
theorem C7_get_redis_data_errors (stored : Option TaskJson) (task_id : String) :
    (stored = none →
      get_redis_data stored task_id =
        .error ⟨404, "Task " ++ task_id ++ " not found"⟩) ∧
    (∀ j, stored = some j → parse_task_data j = none →
      get_redis_data stored task_id =
        .error ⟨400, "Invalid data format for task " ++ task_id⟩) ∧
    (∀ j d, stored = some j → parse_task_data j = some d →
      get_redis_data stored task_id = .ok d) := by
  refine ⟨fun h => by rw [h]; rfl, fun j hj hp => ?_, fun j d hj hp => ?_⟩
  · rw [hj]
    simp [get_redis_data, hp]
  · rw [hj]
    simp [get_redis_data, hp]

/-- C7 witness: a missing entry yields 404, an entry missing the
required webhookUrl field yields 400, and a well-formed entry parses. -/
theorem C7_get_redis_data_errors_witness :
    get_redis_data none "t" = .error ⟨404, "Task t not found"⟩ ∧
    get_redis_data (some ⟨some "t", some "pending", some 0, some 1, some 0,
        none, none, none⟩) "t" =
      .error ⟨400, "Invalid data format for task t"⟩ ∧
    get_redis_data (some ⟨some "t", some "pending", some 0, some 1, some 0,
        none, none, some ""⟩) "t" =
      .ok ⟨"t", "pending", 0, 1, 0, [], [], ""⟩ :=
  ⟨(C7_get_redis_data_errors none "t").1 rfl,
    (C7_get_redis_data_errors _ "t").2.1 _ rfl rfl,
    (C7_get_redis_data_errors _ "t").2.2 _ _ rfl rfl⟩

lemma mk_contact_of_bounds (f l e p li ro : Option String) (q : ℚ)
    (h0 : 0 ≤ q) (h1 : q ≤ 1) :
    mk_contact f l e p li ro q = some ⟨f, l, e, p, li, ro, q⟩ := by
  simp [mk_contact, h0, h1]

lemma structured_filtered_eq (cs : List ContactWithSources)
    (h : ∀ c ∈ cs, 0 ≤ c.confidenceScore ∧ c.confidenceScore ≤ 1) :
    structured_filtered_contacts cs =
      some ((cs.filter fun c => decide (c.confidenceScore ≥ MIN_CONFIDENCE_SCORE)).map
        flatten_structured_contact) := by
  induction cs with
  | nil => rfl
  | cons c cs ih =>
    have hc := h c (List.mem_cons_self c cs)
    have hrest := ih fun x hx => h x (List.mem_cons_of_mem c hx)
    by_cases hq : c.confidenceScore ≥ MIN_CONFIDENCE_SCORE
    · simp only [structured_filtered_contacts, if_pos hq,
        mk_contact_of_bounds _ _ _ _ _ _ _ hc.1 hc.2, hrest, List.filter_cons]
      simp [hq, flatten_structured_contact]
    · simp only [structured_filtered_contacts, if_neg hq, hrest, List.filter_cons]
      simp [hq]

lemma fallback_filtered_eq (cs : List RawContact)
    (h : ∀ c ∈ cs, c.confidenceScore.getD 0 ≤ 1) :
    fallback_filtered_contacts cs =
      some ((cs.filter fun c =>
          decide (c.confidenceScore.getD 0 ≥ MIN_CONFIDENCE_SCORE)).map
        flatten_fallback_contact) := by
  induction cs with
  | nil => rfl
  | cons c cs ih =>
    have hc := h c (List.mem_cons_self c cs)
    have hrest := ih fun x hx => h x (List.mem_cons_of_mem c hx)
    by_cases hq : c.confidenceScore.getD 0 ≥ MIN_CONFIDENCE_SCORE
    · have h0 : (0 : ℚ) ≤ c.confidenceScore.getD 0 :=
        le_trans (by norm_num [MIN_CONFIDENCE_SCORE]) hq
      simp only [fallback_filtered_contacts, if_pos hq,
        mk_contact_of_bounds _ _ _ _ _ _ _ h0 hc, hrest, List.filter_cons]
      simp [hq, flatten_fallback_contact]
    · simp only [fallback_filtered_contacts, if_neg hq, hrest, List.filter_cons]
      simp [hq]

/-- C3: on the typed path (with the [0,1] bounds pydantic guarantees for
a parsed report) and on the loosely-typed fallback path, a contact is
kept exactly when its confidenceScore — defaulting to 0 on the fallback
path when absent — is at least MIN_CONFIDENCE_SCORE = 0.5, and the kept
contacts are flattened in their original order; the threshold is
inclusive since the filter predicate is score at least one half. -/
theorem C3_threshold_inclusive_both_paths :
    MIN_CONFIDENCE_SCORE = 1 / 2 ∧
    (∀ out : ScraperAggregatedOutput,
      (∀ c ∈ out.contacts, 0 ≤ c.confidenceScore ∧ c.confidenceScore ≤ 1) →
      structured_result out = some ⟨out.companyId, out.companyName,
        (out.contacts.filter fun c =>
            decide (c.confidenceScore ≥ MIN_CONFIDENCE_SCORE)).map
          flatten_structured_contact⟩) ∧
    (∀ (r : RawReport) (cid : Int) (cname : String),
      r.companyId = some cid → r.companyName = some cname →
      (∀ c ∈ r.contacts, c.confidenceScore.getD 0 ≤ 1) →
      fallback_result r = some ⟨cid, cname,
        (r.contacts.filter fun c =>
            decide (c.confidenceScore.getD 0 ≥ MIN_CONFIDENCE_SCORE)).map
          flatten_fallback_contact⟩) := by
  refine ⟨by norm_num [MIN_CONFIDENCE_SCORE], fun out h => ?_, fun r cid cname hid hname h => ?_⟩
  · simp [structured_result, structured_filtered_eq out.contacts h]
  · simp [fallback_result, fallback_filtered_eq r.contacts h, hid, hname]

/-- Sample structured report for the C3 witness: one contact at exactly
0.5 and one at 0.49. -/
def c3Out : ScraperAggregatedOutput :=
  ⟨7, "Acme", [⟨some ⟨some "Ada", [], some (mkRat 9 10)⟩, none, none, none, none, none, mkRat 1 2⟩,
    ⟨some ⟨some "Bob", [], none⟩, none, none, none, none, none, mkRat 49 100⟩]⟩

/-- Sample loosely-typed report for the C3 witness: plain-string fields,
one contact at exactly 0.5, one at 0.49 and one with no score at all. -/
def c3Raw : RawReport :=
  ⟨some 7, some "Acme",
    [⟨.str "Ada", .absent, .absent, .absent, .absent, .absent, some (mkRat 1 2)⟩,
      ⟨.str "Bob", .absent, .absent, .absent, .absent, .absent, some (mkRat 49 100)⟩,
      ⟨.str "Eve", .absent, .absent, .absent, .absent, .absent, none⟩], none⟩

/-- C3 witness: the boundary scores 0.5 (kept) and 0.49 (dropped) and a
missing score (dropped) on both paths at concrete reports. -/
theorem C3_threshold_inclusive_both_paths_witness :
    (∀ c ∈ c3Out.contacts, 0 ≤ c.confidenceScore ∧ c.confidenceScore ≤ 1) ∧
    structured_result c3Out = some ⟨c3Out.companyId, c3Out.companyName,
      (c3Out.contacts.filter fun c =>
          decide (c.confidenceScore ≥ MIN_CONFIDENCE_SCORE)).map
        flatten_structured_contact⟩ ∧
    (∀ c ∈ c3Raw.contacts, c.confidenceScore.getD 0 ≤ 1) ∧
    fallback_result c3Raw = some ⟨7, "Acme",
      (c3Raw.contacts.filter fun c =>
          decide (c.confidenceScore.getD 0 ≥ MIN_CONFIDENCE_SCORE)).map
        flatten_fallback_contact⟩ ∧
    structured_result c3Out =
      some ⟨7, "Acme", [⟨some "Ada", none, none, none, none, none, mkRat 1 2⟩]⟩ ∧
    fallback_result c3Raw =
      some ⟨7, "Acme", [⟨some "Ada", none, none, none, none, none, mkRat 1 2⟩]⟩ :=
  ⟨by decide, C3_threshold_inclusive_both_paths.2.1 c3Out (by decide),
    by decide,
    C3_threshold_inclusive_both_paths.2.2 c3Raw 7 "Acme" rfl rfl (by decide),
    by decide, by decide⟩

/-- The spec's notion of one raw contact field and one structured contact
field carrying the same logical value: flattening either yields the same
plain value. -/
def fieldMatches (rf : RawField) (sf : Option ValueWithConfidence) : Prop :=
  fallback_field_value rf = flatten_structured_field sf

/-- The spec's notion of a loosely-typed contact entry carrying the same
logical field values and the same confidenceScore as a structured one. -/
def contactMatches (rc : RawContact) (sc : ContactWithSources) : Prop :=
  fieldMatches rc.firstName sc.firstName ∧ fieldMatches rc.lastName sc.lastName ∧
  fieldMatches rc.email sc.email ∧ fieldMatches rc.phone sc.phone ∧
  fieldMatches rc.linkedinUrl sc.linkedinUrl ∧ fieldMatches rc.role sc.role ∧
  rc.confidenceScore = some sc.confidenceScore

lemma fallback_eq_structured_of_matches :
    ∀ (rcs : List RawContact) (scs : List ContactWithSources),
      List.Forall₂ contactMatches rcs scs →
      fallback_filtered_contacts rcs = structured_filtered_contacts scs := by
  intro rcs scs h
  induction h with
  | nil => rfl
  | @cons rc sc rcs scs hc _ ih =>
    obtain ⟨h1, h2, h3, h4, h5, h6, hq⟩ := hc
    unfold fieldMatches at h1 h2 h3 h4 h5 h6
    simp only [fallback_filtered_contacts, structured_filtered_contacts, hq,
      Option.getD_some, h1, h2, h3, h4, h5, h6, ih]

/-- C8: a structured worker report and a loosely-typed report that carry
the same logical field values and the same confidenceScore values (and
the same company id and name) produce identical flattened results — the
typed path applied to the structured report and the fallback path applied
to the loosely-typed report yield the same CompanyResult, hence
identical flattened Contact objects. -/
theorem C8_structured_fallback_round_trip (r : RawReport)
    (out : ScraperAggregatedOutput)
    (hid : r.companyId = some out.companyId)
    (hname : r.companyName = some out.companyName)
    (hc : List.Forall₂ contactMatches r.contacts out.contacts) :
    fallback_result r = structured_result out := by
  unfold fallback_result structured_result
  rw [fallback_eq_structured_of_matches _ _ hc]
  cases h : structured_filtered_contacts out.contacts with
  | none => rfl
  | some cs => rw [hid, hname]

/-- Loosely-typed contact for the C8 witness: plain string fields. -/
def c8Raw : RawContact :=
  ⟨.str "Ada", .str "Lovelace", .str "ada@acme.io", .absent,
    .nested (some "li.example/ada") [] none, .str "CEO", some (mkRat 3 4)⟩

/-- Structured contact for the C8 witness: the same logical values under
nested value/sources/confidence objects. -/
def c8Structured : ContactWithSources :=
  ⟨some ⟨some "Ada", [⟨some "registry", some "reg.example"⟩], some (mkRat 9 10)⟩,
    some ⟨some "Lovelace", [], none⟩, some ⟨some "ada@acme.io", [], some (mkRat 1 2)⟩,
    none, some ⟨some "li.example/ada", [], none⟩, some ⟨some "CEO", [], none⟩,
    mkRat 3 4⟩

/-- C8 witness: the concrete matched pair of reports flattens to the same
CompanyResult through the two paths. -/
theorem C8_structured_fallback_round_trip_witness :
    List.Forall₂ contactMatches [c8Raw] [c8Structured] ∧
    fallback_result ⟨some 7, some "Acme", [c8Raw], none⟩ =
      structured_result ⟨7, "Acme", [c8Structured]⟩ :=
  ⟨.cons ⟨rfl, rfl, rfl, rfl, rfl, rfl, rfl⟩ .nil,
    C8_structured_fallback_round_trip ⟨some 7, some "Acme", [c8Raw], none⟩
      ⟨7, "Acme", [c8Structured]⟩ rfl rfl
      (.cons ⟨rfl, rfl, rfl, rfl, rfl, rfl, rfl⟩ .nil)⟩

lemma aggregation_eq_routes_filtered (rs : List RawReport) :
    aggregation_filtered_results rs = get_task_results_filtered rs := by
  induction rs with
  | nil => rfl
  | cons r rs ih =>
    cases h : r.error with
    | some e => simpa [aggregation_filtered_results, get_task_results_filtered, h] using ih
    | none => simp [aggregation_filtered_results, get_task_results_filtered, h, ih]

lemma routes_filtered_skip (r : RawReport) (h : r.error.isSome) :
    ∀ rs₁ rs₂ : List RawReport,
      get_task_results_filtered (rs₁ ++ r :: rs₂) =
        get_task_results_filtered (rs₁ ++ rs₂) := by
  intro rs₁ rs₂
  induction rs₁ with
  | nil =>
    obtain ⟨e, he⟩ := Option.isSome_iff_exists.mp h
    simp [get_task_results_filtered, he]
  | cons a rs₁ ih =>
    cases ha : a.error with
    | some e => simpa [get_task_results_filtered, ha] using ih
    | none => simp [get_task_results_filtered, ha, ih]

lemma routes_filtered_cons_none (a : RawReport) (ha : a.error = none)
    (rs : List RawReport) :
    get_task_results_filtered (a :: rs) =
      match filter_low_confidence_contacts a, get_task_results_filtered rs with
      | some c, some rest => some (c :: rest)
      | _, _ => none := by
  simp [get_task_results_filtered, ha]

lemma routes_filtered_keep_last (r : RawReport) (h : r.error = none) :
    ∀ rs : List RawReport,
      get_task_results_filtered (rs ++ [r]) =
        (get_task_results_filtered rs).bind fun xs =>
          (filter_low_confidence_contacts r).map fun c => xs ++ [c] := by
  intro rs
  induction rs with
  | nil =>
    simp only [List.nil_append, get_task_results_filtered, h]
    cases filter_low_confidence_contacts r <;> rfl
  | cons a rs ih =>
    cases ha : a.error with
    | some e => simpa [get_task_results_filtered, ha] using ih
    | none =>
      rw [List.cons_append, routes_filtered_cons_none a ha, ih,
        routes_filtered_cons_none a ha rs]
      cases filter_low_confidence_contacts a <;>
        cases get_task_results_filtered rs <;>
        cases filter_low_confidence_contacts r <;> rfl

/-- C4: a stored result entry whose payload carries a truthy error marker
is excluded from the flattened results of both the results polling
endpoint and the webhook-dispatch step, while the aggregator callback
that stored any payload (the error placeholder included) still appended
one entry and incremented numTasksCompleted by exactly 1. -/
theorem C4_error_entries_excluded_but_counted (r : RawReport) (e : String)
    (he : r.error = some e) :
    (∀ rs₁ rs₂ : List RawReport,
      get_task_results_filtered (rs₁ ++ r :: rs₂) =
        get_task_results_filtered (rs₁ ++ rs₂) ∧
      aggregation_filtered_results (rs₁ ++ r :: rs₂) =
        aggregation_filtered_results (rs₁ ++ rs₂)) ∧
    (∀ (inp : AggregatorInput) (p : RawReport), resolved_payload inp = some p →
      ∀ t : TaskData,
        (script_core t p).newData.numTasksCompleted = t.numTasksCompleted + 1 ∧
        (script_core t p).newData.results = t.results ++ [p]) := by
  refine ⟨fun rs₁ rs₂ => ?_, fun inp p _ t =>
    ⟨script_core_counter t p, script_core_results t p⟩⟩
  have hs : r.error.isSome := by rw [he]; rfl
  refine ⟨routes_filtered_skip r hs rs₁ rs₂, ?_⟩
  rw [aggregation_eq_routes_filtered, aggregation_eq_routes_filtered]
  exact routes_filtered_skip r hs rs₁ rs₂

/-- C4 witness: the error placeholder stored by a failed callback is
skipped by both read paths while the store step still counted it. -/
theorem C4_error_entries_excluded_but_counted_witness :
    (⟨none, none, [], some "boom"⟩ : RawReport).error = some "boom" ∧
    get_task_results_filtered
        ([⟨some 1, some "A", [], none⟩] ++ (⟨none, none, [], some "boom"⟩ : RawReport) :: []) =
      get_task_results_filtered ([⟨some 1, some "A", [], none⟩] ++ []) ∧
    aggregation_filtered_results
        ([⟨some 1, some "A", [], none⟩] ++ (⟨none, none, [], some "boom"⟩ : RawReport) :: []) =
      aggregation_filtered_results ([⟨some 1, some "A", [], none⟩] ++ []) ∧
    resolved_payload ⟨"t", none, some "boom"⟩ = some ⟨none, none, [], some "boom"⟩ ∧
    (script_core ⟨"t", "pending", 0, 3, 1, [], [], ""⟩
        ⟨none, none, [], some "boom"⟩).newData.numTasksCompleted = 1 + 1 ∧
    (script_core ⟨"t", "pending", 0, 3, 1, [], [], ""⟩
        ⟨none, none, [], some "boom"⟩).newData.results =
      [] ++ [⟨none, none, [], some "boom"⟩] := by
  have h := C4_error_entries_excluded_but_counted ⟨none, none, [], some "boom"⟩ "boom" rfl
  have h2 := h.2 ⟨"t", none, some "boom"⟩ ⟨none, none, [], some "boom"⟩ rfl
    ⟨"t", "pending", 0, 3, 1, [], [], ""⟩
  exact ⟨rfl, (h.1 [⟨some 1, some "A", [], none⟩] []).1,
    (h.1 [⟨some 1, some "A", [], none⟩] []).2, rfl, h2.1, h2.2⟩

/-- C10: when an aggregator callback carries both a truthy error marker
and a truthy data payload, the data payload itself is what reaches the
store — unchanged, without the error marker attached — so the script
appends it as is; if that payload carries no error key of its own, both
read paths keep it (appending its flattened CompanyResult) rather than
skipping it, unlike the placeholder synthesized when data is absent,
which carries the marker and is skipped. -/
theorem C10_error_with_data_stores_data (inp : AggregatorInput) (d : RawReport)
    (e : String) (hd : inp.data = some d) (he : inp.error = some e) :
    resolved_payload inp = some d ∧
    (∀ t : TaskData, (script_core t d).newData.results = t.results ++ [d]) ∧
    (d.error = none →
      ∀ rs : List RawReport,
        get_task_results_filtered (rs ++ [d]) =
          ((get_task_results_filtered rs).bind fun xs =>
            (filter_low_confidence_contacts d).map fun c => xs ++ [c]) ∧
        aggregation_filtered_results (rs ++ [d]) =
          ((aggregation_filtered_results rs).bind fun xs =>
            (filter_low_confidence_contacts d).map fun c => xs ++ [c])) ∧
    resolved_payload ⟨inp.task_id, none, some e⟩ = some ⟨none, none, [], some e⟩ ∧
    (∀ rs : List RawReport,
      get_task_results_filtered (rs ++ [(⟨none, none, [], some e⟩ : RawReport)]) =
        get_task_results_filtered rs) := by
  refine ⟨by simp [resolved_payload, he, hd], fun t => script_core_results t d,
    fun hde rs => ?_, rfl, fun rs => ?_⟩
  · refine ⟨routes_filtered_keep_last d hde rs, ?_⟩
    rw [aggregation_eq_routes_filtered, aggregation_eq_routes_filtered]
    exact routes_filtered_keep_last d hde rs
  · have := routes_filtered_skip (⟨none, none, [], some e⟩ : RawReport) rfl rs []
    simpa using this

/-- C10 witness: a callback carrying both an error marker and a data
payload stores the data payload unchanged and the read paths keep it. -/
theorem C10_error_with_data_stores_data_witness :
    (⟨"t", some ⟨some 1, some "A", [], none⟩, some "boom"⟩ : AggregatorInput).data =
      some ⟨some 1, some "A", [], none⟩ ∧
    (⟨"t", some ⟨some 1, some "A", [], none⟩, some "boom"⟩ : AggregatorInput).error =
      some "boom" ∧
    resolved_payload ⟨"t", some ⟨some 1, some "A", [], none⟩, some "boom"⟩ =
      some ⟨some 1, some "A", [], none⟩ ∧
    get_task_results_filtered ([] ++ [(⟨some 1, some "A", [], none⟩ : RawReport)]) =
      ((get_task_results_filtered []).bind fun xs =>
        (filter_low_confidence_contacts ⟨some 1, some "A", [], none⟩).map
          fun c => xs ++ [c]) ∧
    get_task_results_filtered
        ([] ++ [(⟨none, none, [], some "boom"⟩ : RawReport)]) =
      get_task_results_filtered [] := by
  have h := C10_error_with_data_stores_data
    ⟨"t", some ⟨some 1, some "A", [], none⟩, some "boom"⟩
    ⟨some 1, some "A", [], none⟩ "boom" rfl rfl
  exact ⟨rfl, rfl, h.1, (h.2.2.1 rfl []).1, h.2.2.2.2 []⟩

/-- C6 counterexample: with an empty batch and a configured webhook URL
but a missing queue name, the fan-out job performs no webhook post at
all — the missing-configuration check returns before the empty-batch
branch — contradicting the claim that a configured webhook always
receives an empty-results post for an empty batch. -/
theorem C6_counterexample_missing_queue_config :
    (⟨none, some "Endpoint=sb://x", some "https://hook.example"⟩ : FanoutEnv).webhook_url =
      some "https://hook.example" ∧
    (process_enqueue_enrichment ⟨none, some "Endpoint=sb://x", some "https://hook.example"⟩
        ⟨[]⟩ "t").webhookPosts = [] ∧
    (process_enqueue_enrichment ⟨none, some "Endpoint=sb://x", some "https://hook.example"⟩
        ⟨[]⟩ "t").webhookPosts ≠
      [⟨"https://hook.example", .resultsOnly []⟩] :=
  ⟨rfl, rfl, by decide⟩

/-- C6 (amended): provided the queue name and the queue connection
string are both configured, the fan-out job for an empty batch sends no
queue messages, performs no task-store write, and POSTs exactly the empty
results object to the webhook when one is configured (and posts nothing
when none is). -/
theorem C6_empty_batch_fanout (qn cs : String) (wh : Option String)
    (input_data : EnrichmentInput) (task_id : String)
    (hempty : input_data.formData = []) :
    process_enqueue_enrichment ⟨some qn, some cs, wh⟩ input_data task_id =
      ⟨[], (match wh with
        | some url => [⟨url, .resultsOnly []⟩]
        | none => []), []⟩ := by
  simp only [process_enqueue_enrichment, hempty, List.length_nil, if_pos rfl]
  cases wh <;> rfl

/-- C6 witness: concrete empty batch with full queue configuration and a
configured webhook receives exactly the empty-results post. -/
theorem C6_empty_batch_fanout_witness :
    (⟨[]⟩ : EnrichmentInput).formData = [] ∧
    process_enqueue_enrichment
        ⟨some "enrichment", some "Endpoint=sb://x", some "https://hook.example"⟩ ⟨[]⟩ "t" =
      ⟨[], [⟨"https://hook.example", .resultsOnly []⟩], []⟩ :=
  ⟨rfl, C6_empty_batch_fanout "enrichment" "Endpoint=sb://x"
    (some "https://hook.example") ⟨[]⟩ "t" rfl⟩

/-- C1 witness: one concrete script execution against a record with one
of two callbacks already counted. -/
theorem C1_script_append_advance_single_fire_witness :
    update_and_check_task (some ⟨"t", "pending", 0, 2, 1, [], [], ""⟩)
        ⟨none, none, [], none⟩ =
      .ok (script_core ⟨"t", "pending", 0, 2, 1, [], [], ""⟩ ⟨none, none, [], none⟩) ∧
    (script_core ⟨"t", "pending", 0, 2, 1, [], [], ""⟩
        ⟨none, none, [], none⟩).newData.results = [] ++ [⟨none, none, [], none⟩] ∧
    (script_core ⟨"t", "pending", 0, 2, 1, [], [], ""⟩
        ⟨none, none, [], none⟩).newData.numTasksCompleted = 1 + 1 ∧
    (run_flags ⟨"t", "pending", 0, 2, 1, [], [], ""⟩
        [⟨none, none, [], none⟩, ⟨none, none, [], none⟩]).count 1 ≤ 1 := by
  have h := C1_script_append_advance_single_fire ⟨"t", "pending", 0, 2, 1, [], [], ""⟩
    ⟨none, none, [], none⟩
  exact ⟨h.1, h.2.1, h.2.2.1, h.2.2.2.2.2.2 [⟨none, none, [], none⟩, ⟨none, none, [], none⟩]⟩

/-- C5 witness: enqueuing a concrete one-company batch. -/
theorem C5_enqueue_record_and_response_witness :
    TASK_RESULT_TTL = 2160000 ∧
    (enqueue_enrichment ⟨[⟨"Acme", 1⟩]⟩ "tid" 0 "https://hook.example").1 =
      ⟨"task:" ++ "tid", 2160000,
        ⟨"tid", "pending", 0, 1, 0, [], [], "https://hook.example"⟩⟩ ∧
    (enqueue_enrichment ⟨[⟨"Acme", 1⟩]⟩ "tid" 0 "https://hook.example").2 =
      ⟨"tid", "processing", 1⟩ :=
  C5_enqueue_record_and_response ⟨[⟨"Acme", 1⟩]⟩ "tid" 0 "https://hook.example"

/-- C9 witness: a task from an empty batch stays pending across three
callbacks and fires no completion flag. -/
theorem C9_empty_batch_never_completes_witness :
    (enqueue_enrichment ⟨[]⟩ "t" 0 "").1.data.numTasks = 0 ∧
    (run_script (enqueue_enrichment ⟨[]⟩ "t" 0 "").1.data
        [⟨none, none, [], none⟩, ⟨none, none, [], some "boom"⟩,
          ⟨some 1, some "A", [], none⟩]).status = "pending" ∧
    run_flags (enqueue_enrichment ⟨[]⟩ "t" 0 "").1.data
        [⟨none, none, [], none⟩, ⟨none, none, [], some "boom"⟩,
          ⟨some 1, some "A", [], none⟩] =
      List.replicate 3 0 :=
  C9_empty_batch_never_completes "t" 0 ""
    [⟨none, none, [], none⟩, ⟨none, none, [], some "boom"⟩, ⟨some 1, some "A", [], none⟩]
